import Mathlib

/-!
Shallow embedding of the overlay lifecycle orchestrator `GameOverlayService`
(src/unnamed/part_001, `app/services/game-overlay`) of the streamlabs-obs
repository, together with theorems settling the frozen claims about it.

The embedding follows the TypeScript source directly:
* the persisted Vuex-like state `GameOverlayState` becomes a Lean structure;
* calls into the native overlay SDK (`overlay.start/stop/addHWND/setPosition/
  setTransparency/show/hide`) and into Electron windows (`showInactive`,
  `hide`, `destroy`) become constructors of an explicit `Effect` trace, so
  that theorems can speak about which compositor calls a method issues;
* the rxjs readiness pipeline `onWindowsReady.pipe(take(3), delay(5000))`,
  fed by the two `did-finish-load` one-shot handlers and the `dom-ready`
  `take(2)` handler of the control-panel window, becomes an explicit state
  machine `AggState`/`stepEvent` driven by a list of `ReadyEvent`s.
-/

/-- Persisted service state, translated from `GameOverlayState` in the source
(fields `isEnabled`, `isShowing`, `isPreviewEnabled`). -/
structure GameOverlayState where
  isEnabled : Bool
  isShowing : Bool
  isPreviewEnabled : Bool
  deriving DecidableEq, Repr

/-- Translation of `GameOverlayService.defaultState` (source lines 35-39). -/
def defaultState : GameOverlayState :=
  { isEnabled := false, isShowing := false, isPreviewEnabled := true }

/-- Roles of the three windows held in the `this.windows` dictionary.  In the
source the insertion order in `createOverlay` is `recentEvents` (line 144),
`chat` (line 152), `overlayControls` (line 190), which fixes the
`Object.values` iteration order used by the readiness completion callback. -/
inductive WindowRole where
  | recentEvents
  | chat
  | overlayControls
  deriving DecidableEq, Repr

/-- Observable geometry and native handle of one Electron `BrowserWindow`,
the parts of the window object the overlay code reads (`getPosition`,
`getBounds`, `getNativeWindowHandle`). -/
structure BrowserWin where
  x : Int
  y : Int
  width : Int
  height : Int
  handle : Nat
  deriving DecidableEq, Repr

/-- The fixed-shape record of the three surface windows, mirroring the
`this.windows` dictionary of the service. -/
structure OverlayWindows where
  recentEvents : BrowserWin
  chat : BrowserWin
  overlayControls : BrowserWin
  deriving DecidableEq, Repr

/-- Iteration order of `Object.values(this.windows)`: JavaScript string keys
enumerate in insertion order, and `createOverlay` assigns `recentEvents`,
then `chat`, then `overlayControls`. -/
def roleWindowList (w : OverlayWindows) : List (WindowRole × BrowserWin) :=
  [(WindowRole.recentEvents, w.recentEvents),
   (WindowRole.chat, w.chat),
   (WindowRole.overlayControls, w.overlayControls)]

/-- Externally visible effects of the service: calls into the native overlay
SDK and onto Electron windows.  `addHWND` records both the handle passed and
the id the SDK returned; `removeHWND` models the `unregister` operation the
spec posits for the CompositorClient — no call site for it exists anywhere in
the source of this service. -/
inductive Effect where
  | startOverlay
  | stopOverlay
  | showInactive (role : WindowRole)
  | addHWND (handle : Nat) (result : Int)
  | hideOverlayWindow
  | setPosition (id : Int) (x y width height : Int)
  | setTransparency (id : Int) (alpha : Nat)
  | showAll
  | hideAll
  | unsubscribeReadiness
  | destroyWindow (role : WindowRole)
  | removeHWND (id : Int)
  | threw (msg : String)
  deriving DecidableEq, Repr

/-- Translation of the `OFFSCREEN_OFFSET` constant (source line 20): the
windows are rendered offscreen by this horizontal offset so the overlay
system can capture their contents. -/
def OFFSCREEN_OFFSET : Int := 5000

/-- Translation of `showOverlay` (source lines 219-222): unconditionally call
`overlay.show()` and run the `TOGGLE_OVERLAY(true)` mutation. -/
def showOverlay (s : GameOverlayState) : GameOverlayState × List Effect :=
  ({ s with isShowing := true }, [Effect.showAll])

/-- Translation of `hideOverlay` (source lines 224-227): unconditionally call
`overlay.hide()` and run the `TOGGLE_OVERLAY(false)` mutation. -/
def hideOverlay (s : GameOverlayState) : GameOverlayState × List Effect :=
  ({ s with isShowing := false }, [Effect.hideAll])

/-- Removes the first NUL character of a character list, modelling the
JavaScript expression `str.replace(u0000, "")`, which with a string pattern
replaces only the first occurrence. -/
def removeFirstNullAux : List Char → List Char
  | [] => []
  | c :: rest => if c.toNat = 0 then rest else c :: removeFirstNullAux rest

/-- String-level wrapper of `removeFirstNullAux`, the normalization the
source applies to `overlay.getStatus()` before comparing it. -/
def replaceFirstNull (s : String) : String :=
  String.mk (removeFirstNullAux s.data)

/-- Whitespace trim of both ends of a character list, modelling the
JavaScript `String.prototype.trim`. -/
def trimChars (l : List Char) : List Char :=
  ((l.dropWhile (fun c => c.isWhitespace)).reverse.dropWhile
    (fun c => c.isWhitespace)).reverse

/-- String-level wrapper of `trimChars`. -/
def trimModel (s : String) : String :=
  String.mk (trimChars s.data)

/-- Modelled from the spec: `status() → {Running, Stopped, Error}` — the
`Running` member of the `OverlayThreadStatus` enum of the external
`@streamlabs/game-overlay` SDK, whose source is not part of this repository.
The spec describes the probe values as the plain status words. -/
def OverlayThreadStatus.Running : String := "Running"

/-- Translation of `toggleOverlay` (source lines 229-236): the status string
returned by `overlay.getStatus()` is an input; after stripping the stray
terminator byte it is compared against `OverlayThreadStatus.Running.trim()`;
on mismatch the method returns without any call, otherwise it delegates to
`hideOverlay` or `showOverlay` based on `state.isShowing`. -/
def toggleOverlay (status : String) (s : GameOverlayState) :
    GameOverlayState × List Effect :=
  if replaceFirstNull status ≠ trimModel OverlayThreadStatus.Running then
    (s, [])
  else if s.isShowing then hideOverlay s else showOverlay s

/-- Session-level actions that `setEnabled` can trigger. -/
inductive SessionAction where
  | createOverlay
  | destroyOverlay
  deriving DecidableEq, Repr

/-- Translation of `setEnabled` (source lines 242-255): compute
`shouldStart`/`shouldStop` from the requested flag and the current state,
invoke `createOverlay`/`destroyOverlay` accordingly, and always run the
`SET_ENABLED` mutation persisting the requested flag. -/
def setEnabled (shouldEnable : Bool) (s : GameOverlayState) :
    GameOverlayState × List SessionAction :=
  let shouldStart := shouldEnable && !s.isEnabled
  let shouldStop := !shouldEnable && s.isEnabled
  ({ s with isEnabled := shouldEnable },
    (if shouldStart then [SessionAction.createOverlay] else []) ++
      (if shouldStop then [SessionAction.destroyOverlay] else []))

/-- Translation of `setPreviewEnabled` (source lines 257-259): it only runs
the `SET_PREVIEW_ENABLED` mutation; no overlay SDK call appears in its body,
hence the empty effect list. -/
def setPreviewEnabled (shouldEnable : Bool) (s : GameOverlayState) :
    GameOverlayState × List Effect :=
  ({ s with isPreviewEnabled := shouldEnable }, [])

/-- Translation of `destroyOverlay` (source lines 277-281): stop the overlay
SDK, unsubscribe the readiness subscription, destroy every window of the
`this.windows` dictionary in iteration order.  The method does not touch the
persisted state. -/
def destroyOverlay (s : GameOverlayState) : GameOverlayState × List Effect :=
  (s,
    [Effect.stopOverlay, Effect.unsubscribeReadiness,
     Effect.destroyWindow WindowRole.recentEvents,
     Effect.destroyWindow WindowRole.chat,
     Effect.destroyWindow WindowRole.overlayControls])

/-- Low-level readiness events feeding the pipeline in `createOverlay`:
`did-finish-load` of the recent-events view, `did-finish-load` of the chat
view, and `dom-ready` of the control-panel window web contents. -/
inductive ReadyEvent where
  | recentEventsLoaded
  | chatLoaded
  | controlsDomReady
  deriving DecidableEq, Repr

/-- State of the readiness wiring of one overlay session:
* `reSignaled`, `chatSignaled` record the one-shot `once` handlers of the two
  `did-finish-load` events having fired;
* `controlsDomReadyCount` counts `dom-ready` events delivered to the
  `fromEvent(...).pipe(take(2))` subscription of the control-panel window;
* `emissions` counts values delivered to the `onWindowsReady.pipe(take(3))`
  subscriber;
* `completedAt` records the (1-based) index of the event at which `take(3)`
  completed, `none` while still collecting. -/
structure AggState where
  reSignaled : Bool
  chatSignaled : Bool
  controlsDomReadyCount : Nat
  emissions : Nat
  completedAt : Option Nat
  deriving DecidableEq, Repr

/-- Initial aggregator state at session creation. -/
def initAgg : AggState :=
  { reSignaled := false, chatSignaled := false, controlsDomReadyCount := 0,
    emissions := 0, completedAt := none }

/-- One `onWindowsReady.next(...)` delivery seen by the `take(3)` subscriber:
ignored once `take(3)` has completed; the third delivery completes the
subscription, recording the current event index. -/
def subjectNext (s : AggState) (idx : Nat) : AggState :=
  if s.completedAt.isSome then s
  else if s.emissions + 1 = 3 then
    { s with emissions := s.emissions + 1, completedAt := some idx }
  else { s with emissions := s.emissions + 1 }

/-- Delivery of one low-level readiness event at index `idx`:
* the two `did-finish-load` handlers are registered with `once`, so a repeat
  event is dropped; the first occurrence calls `onWindowsReady.next`;
* `dom-ready` events beyond the second are dropped by `take(2)`; the second
  one completes that inner subscription, whose `complete` handler calls
  `onWindowsReady.next` (the first `dom-ready` only triggers the reload
  workaround and emits nothing). -/
def stepEvent (s : AggState) (idx : Nat) : ReadyEvent → AggState
  | ReadyEvent.recentEventsLoaded =>
      if s.reSignaled then s else subjectNext { s with reSignaled := true } idx
  | ReadyEvent.chatLoaded =>
      if s.chatSignaled then s
      else subjectNext { s with chatSignaled := true } idx
  | ReadyEvent.controlsDomReady =>
      if 2 ≤ s.controlsDomReadyCount then s
      else if s.controlsDomReadyCount + 1 = 2 then
        subjectNext { s with controlsDomReadyCount := s.controlsDomReadyCount + 1 } idx
      else { s with controlsDomReadyCount := s.controlsDomReadyCount + 1 }

/-- Runs the aggregator over a list of events, numbering them from `idx`. -/
def runAggAux (s : AggState) (idx : Nat) : List ReadyEvent → AggState
  | [] => s
  | e :: rest => runAggAux (stepEvent s idx e) (idx + 1) rest

/-- Runs the aggregator from the initial state, events numbered from 1. -/
def runAgg (l : List ReadyEvent) : AggState := runAggAux initAgg 1 l

/-- The full expected low-level event multiset of one session: one
`did-finish-load` per content view and two `dom-ready` events of the
control-panel window (the reload workaround produces the second). -/
def fullReadyTrace : List ReadyEvent :=
  [ReadyEvent.recentEventsLoaded, ReadyEvent.chatLoaded,
   ReadyEvent.controlsDomReady, ReadyEvent.controlsDomReady]

/-- The `delay(5000)` applied to the pipeline before the completion callback
runs (source line 84, commented: so recent events has time to load). -/
def settlingDelay : Nat := 5000

/-- Number of times the completion callback has been invoked: the rx
`complete` handler of a `take(3)` subscription runs at most once. -/
def fireCount (s : AggState) : Nat := if s.completedAt.isSome then 1 else 0

/-- Logical time at which the completion callback runs: completion time of
`take(3)` shifted by the settling delay, `none` if it never completed. -/
def fireTime (l : List ReadyEvent) : Option Nat :=
  (runAgg l).completedAt.map (fun t => t + settlingDelay)

/-- Translation of the `complete` callback body registered in `createOverlay`
(source lines 87-107): iterate `Object.values(this.windows)` in insertion
order; for each window call `showInactive`, register its native handle with
`overlay.addHWND`; if the returned id is the sentinel `-1`, hide the
container window `this.overlayWindow` and throw, which aborts the iteration;
otherwise read position and bounds and call `overlay.setPosition` (with the
x coordinate shifted back by `OFFSCREEN_OFFSET`) and
`overlay.setTransparency(id, 255)`.  The SDK response is abstracted as the
function `register` from handle to returned id. -/
def overlayCompleteCallback (register : Nat → Int) :
    List (WindowRole × BrowserWin) → List Effect
  | [] => []
  | (role, win) :: rest =>
      let overlayId := register win.handle
      Effect.showInactive role :: Effect.addHWND win.handle overlayId ::
        (if overlayId = -1 then
          [Effect.hideOverlayWindow, Effect.threw "Error creating overlay"]
        else
          Effect.setPosition overlayId (win.x - OFFSCREEN_OFFSET) win.y
              win.width win.height ::
            Effect.setTransparency overlayId 255 ::
            overlayCompleteCallback register rest)

/-- Live compositor registrations after a trace of effects: a successful
`addHWND` (result not `-1`) adds one, `removeHWND` removes one, and stopping
the compositor invalidates all of them at once. -/
def liveStep (acc : List Int) : Effect → List Int
  | Effect.addHWND _ r => if r = -1 then acc else acc ++ [r]
  | Effect.stopOverlay => []
  | Effect.removeHWND i => acc.erase i
  | _ => acc

/-- Folds `liveStep` over an effect trace. -/
def liveRegistrations (trace : List Effect) : List Int :=
  trace.foldl liveStep []

/-- Roles of the windows a trace destroys, in order. -/
def windowsDestroyed (trace : List Effect) : List WindowRole :=
  trace.filterMap (fun e =>
    match e with
    | Effect.destroyWindow r => some r
    | _ => none)

/-- Handles passed to `overlay.addHWND` by a trace, in call order. -/
def handlesRegistered (trace : List Effect) : List Nat :=
  trace.filterMap (fun e =>
    match e with
    | Effect.addHWND h _ => some h
    | _ => none)

/-- Recognizes the per-surface unregister operation the spec posits. -/
def isUnregisterEffect : Effect → Bool
  | Effect.removeHWND _ => true
  | _ => false

/-- Work-area extents of the current display, the only fields of
`windowsService.getCurrentDisplay()` the overlay code reads. -/
structure DisplayInfo where
  workAreaWidth : Int
  workAreaHeight : Int
  deriving DecidableEq, Repr

/-- Geometry of the three surface windows as `createOverlay` builds them
(source lines 110-205): the container coordinates put the windows offscreen
via `OFFSCREEN_OFFSET`; `recentEvents` is 600x300 at the left of the
container, `chat` is 300x600 at the container position, `overlayControls` is
600x300 below `recentEvents`.  Native handles are abstracted by the
`handles` function.  The division by 2 of the work-area extents follows the
source arithmetic. -/
def createOverlayWindows (display : DisplayInfo) (handles : WindowRole → Nat) :
    OverlayWindows :=
  let containerX := display.workAreaWidth / 2 + 200 + OFFSCREEN_OFFSET
  let containerY := display.workAreaHeight / 2 - 300
  { recentEvents :=
      { x := containerX - 600, y := containerY, width := 600, height := 300,
        handle := handles WindowRole.recentEvents }
    chat :=
      { x := containerX, y := containerY, width := 300, height := 600,
        handle := handles WindowRole.chat }
    overlayControls :=
      { x := containerX - 600, y := containerY + 300, width := 600,
        height := 300, handle := handles WindowRole.overlayControls } }

/-- Effects of a whole session wiring: the completion callback runs on the
fixed window record exactly when the aggregator completed on the delivered
readiness events; the registration sequence depends only on the window
record, never on the order in which the readiness events arrived. -/
def overlaySessionEffects (l : List ReadyEvent) (register : Nat → Int)
    (w : OverlayWindows) : List Effect :=
  if (runAgg l).completedAt.isSome then
    overlayCompleteCallback register (roleWindowList w)
  else []

/-! Helper lemmas shared by the claim theorems. -/

/-- Characterization of the aggregator on every permutation of the full
expected event trace: completion occurs exactly at the last event, and all
three readiness sources are then saturated. -/
theorem aggPerm_props (l : List ReadyEvent) (h : l.Perm fullReadyTrace) :
    (runAgg l).completedAt = some l.length ∧
      (runAgg l).reSignaled = true ∧ (runAgg l).chatSignaled = true ∧
      (runAgg l).controlsDomReadyCount = 2 := by
  have hlen : l.length = 4 := by simpa [fullReadyTrace] using h.length_eq
  obtain ⟨a, b, c, d, rfl⟩ : ∃ a b c d, l = [a, b, c, d] := by
    match l, hlen with
    | [a, b, c, d], _ => exact ⟨a, b, c, d, rfl⟩
  cases a <;> cases b <;> cases c <;> cases d <;> revert h <;> decide

/-- Once all three readiness sources are saturated, every further event is
dropped without any state change. -/
theorem stepEvent_saturated (s : AggState) (idx : Nat) (e : ReadyEvent)
    (h1 : s.reSignaled = true) (h2 : s.chatSignaled = true)
    (h3 : 2 ≤ s.controlsDomReadyCount) :
    stepEvent s idx e = s := by
  cases e <;> simp [stepEvent, h1, h2, h3]

/-- A saturated aggregator state is a fixed point of the whole run. -/
theorem runAggAux_saturated (s : AggState)
    (h1 : s.reSignaled = true) (h2 : s.chatSignaled = true)
    (h3 : 2 ≤ s.controlsDomReadyCount) :
    ∀ (idx : Nat) (extra : List ReadyEvent), runAggAux s idx extra = s := by
  intro idx extra
  induction extra generalizing idx with
  | nil => rfl
  | cons e rest ih =>
      rw [runAggAux, stepEvent_saturated s idx e h1 h2 h3]
      exact ih (idx + 1)

/-! Claim theorems. -/

/-- C1: for every ordering (permutation) of the expected readiness signals —
RecentEvents ready, Chat ready, and the two content-ready notifications of
the control panel, of which only the second emits a readiness signal — the
aggregated completion callback is invoked exactly once, only after all
expected signals have arrived (completion is recorded exactly at the last
event index) and after the fixed settling delay; every event delivered after
it has fired leaves the aggregator state unchanged, so late signals are
discarded without error. -/
theorem readiness_fires_once_after_all_signals (l : List ReadyEvent)
    (h : l.Perm fullReadyTrace) :
    (runAgg l).completedAt = some l.length ∧
      fireCount (runAgg l) = 1 ∧
      fireTime l = some (l.length + settlingDelay) ∧
      ∀ (idx : Nat) (extra : List ReadyEvent),
        runAggAux (runAgg l) idx extra = runAgg l := by
  obtain ⟨hc, hre, hch, hcp⟩ := aggPerm_props l h
  refine ⟨hc, ?_, ?_, ?_⟩
  · simp [fireCount, hc]
  · simp [fireTime, hc]
  · intro idx extra
    exact runAggAux_saturated (runAgg l) hre hch (le_of_eq hcp.symm) idx extra

/-- C1 witness: a concrete interleaving in which the first control-panel
notification arrives before both content surfaces and the second arrives in
between them. -/
theorem readiness_fires_once_after_all_signals_witness :
    (runAgg [ReadyEvent.controlsDomReady, ReadyEvent.recentEventsLoaded,
        ReadyEvent.controlsDomReady, ReadyEvent.chatLoaded]).completedAt =
      some 4 ∧
    fireCount (runAgg [ReadyEvent.controlsDomReady,
        ReadyEvent.recentEventsLoaded, ReadyEvent.controlsDomReady,
        ReadyEvent.chatLoaded]) = 1 ∧
    fireTime [ReadyEvent.controlsDomReady, ReadyEvent.recentEventsLoaded,
        ReadyEvent.controlsDomReady, ReadyEvent.chatLoaded] = some 5004 :=
  ⟨(readiness_fires_once_after_all_signals _ (by decide)).1,
   (readiness_fires_once_after_all_signals _ (by decide)).2.1,
   (readiness_fires_once_after_all_signals _ (by decide)).2.2.1⟩

/-- C4: whenever the status probe, after stripping the stray terminator
byte, does not compare equal to the Running status, `toggleOverlay` returns
with the state unchanged and without issuing any compositor call. -/
theorem toggle_noop_when_not_running (status : String) (s : GameOverlayState)
    (h : replaceFirstNull status ≠ trimModel OverlayThreadStatus.Running) :
    toggleOverlay status s = (s, []) := by
  simp [toggleOverlay, h]

/-- C4 witness: toggling with a Stopped status probe in a showing state is a
silent no-op. -/
theorem toggle_noop_when_not_running_witness :
    toggleOverlay "Stopped"
        { isEnabled := true, isShowing := true, isPreviewEnabled := true } =
      ({ isEnabled := true, isShowing := true, isPreviewEnabled := true },
        []) :=
  toggle_noop_when_not_running "Stopped"
    { isEnabled := true, isShowing := true, isPreviewEnabled := true }
    (by decide)

/-- C10: when the status probe normalizes to Running, `toggleOverlay`
inverts `isShowing`, delegating to `hideOverlay` when showing (emitting the
global hide call) and to `showOverlay` when hidden (emitting the global show
call); two consecutive toggles therefore restore `isShowing`. -/
theorem toggle_involution_when_running (status : String)
    (s : GameOverlayState)
    (h : replaceFirstNull status = trimModel OverlayThreadStatus.Running) :
    (toggleOverlay status s).1.isShowing = !s.isShowing ∧
      (toggleOverlay status (toggleOverlay status s).1).1.isShowing =
        s.isShowing ∧
      (toggleOverlay status s).2 =
        [if s.isShowing then Effect.hideAll else Effect.showAll] := by
  have hng : ¬replaceFirstNull status ≠ trimModel OverlayThreadStatus.Running :=
    not_not_intro h
  cases hs : s.isShowing <;>
    simp [toggleOverlay, hideOverlay, showOverlay, hng, hs]

/-- C10 witness: under a clean Running status, toggling a hidden overlay
shows it and a second toggle hides it again. -/
theorem toggle_involution_when_running_witness :
    (toggleOverlay "Running"
        { isEnabled := true, isShowing := false,
          isPreviewEnabled := true }).1.isShowing = true ∧
      (toggleOverlay "Running"
          (toggleOverlay "Running"
            { isEnabled := true, isShowing := false,
              isPreviewEnabled := true }).1).1.isShowing = false ∧
      (toggleOverlay "Running"
          { isEnabled := true, isShowing := false,
            isPreviewEnabled := true }).2 = [Effect.showAll] :=
  toggle_involution_when_running "Running"
    { isEnabled := true, isShowing := false, isPreviewEnabled := true }
    (by decide)

/-- C5: `setEnabled` is idempotent — from a disabled state, two consecutive
`setEnabled(true)` calls trigger exactly one `createOverlay`; from an
enabled state, two consecutive `setEnabled(false)` calls trigger exactly one
`destroyOverlay`; and after any call the persisted `isEnabled` flag equals
the requested value (here instantiated at both flag values on both a
disabled and an enabled state, which together cover every state). -/
theorem setEnabled_idempotent (s t : GameOverlayState)
    (hs : s.isEnabled = false) (ht : t.isEnabled = true) :
    (setEnabled true s).2 ++ (setEnabled true (setEnabled true s).1).2 =
        [SessionAction.createOverlay] ∧
      (setEnabled false t).2 ++
          (setEnabled false (setEnabled false t).1).2 =
        [SessionAction.destroyOverlay] ∧
      (setEnabled true s).1.isEnabled = true ∧
      (setEnabled false s).1.isEnabled = false ∧
      (setEnabled true t).1.isEnabled = true ∧
      (setEnabled false t).1.isEnabled = false := by
  simp [setEnabled, hs, ht]

/-- C5 witness: the double-enable and double-disable scenarios at the
default state and at an enabled state. -/
theorem setEnabled_idempotent_witness :
    (setEnabled true defaultState).2 ++
        (setEnabled true (setEnabled true defaultState).1).2 =
      [SessionAction.createOverlay] ∧
    (setEnabled false
          { isEnabled := true, isShowing := false,
            isPreviewEnabled := true }).2 ++
        (setEnabled false
          (setEnabled false
            { isEnabled := true, isShowing := false,
              isPreviewEnabled := true }).1).2 =
      [SessionAction.destroyOverlay] :=
  ⟨(setEnabled_idempotent defaultState
      { isEnabled := true, isShowing := false, isPreviewEnabled := true }
      (by decide) (by decide)).1,
   (setEnabled_idempotent defaultState
      { isEnabled := true, isShowing := false, isPreviewEnabled := true }
      (by decide) (by decide)).2.1⟩

/-- C6 counterexample: in a non-Active state (session disabled, nothing
registered), `showOverlay` still issues the global compositor show call and
flips `isShowing` to true, and `hideOverlay` likewise issues the hide call —
refuting the claim that outside the Active state both are silent no-ops that
issue no compositor call and leave `isShowing` unchanged. -/
theorem show_hide_not_guarded_cex :
    showOverlay
        { isEnabled := false, isShowing := false, isPreviewEnabled := true } =
      ({ isEnabled := false, isShowing := true, isPreviewEnabled := true },
        [Effect.showAll]) ∧
      hideOverlay
          { isEnabled := false, isShowing := true,
            isPreviewEnabled := true } =
        ({ isEnabled := false, isShowing := false, isPreviewEnabled := true },
          [Effect.hideAll]) := by
  decide

/-- C6 amended: `showOverlay` and `hideOverlay` are unguarded — in every
session state they issue the global compositor show respectively hide call
and set `isShowing` to true respectively false; no session-state check
exists in their bodies (the only guard in this area is the compositor
status check inside `toggleOverlay`). -/
theorem show_hide_unconditional (s : GameOverlayState) :
    showOverlay s = ({ s with isShowing := true }, [Effect.showAll]) ∧
      hideOverlay s = ({ s with isShowing := false }, [Effect.hideAll]) :=
  ⟨rfl, rfl⟩

/-- C8: the default persisted state is disabled, hidden, preview-on. -/
theorem default_state_disabled_hidden_preview_on :
    defaultState.isEnabled = false ∧ defaultState.isShowing = false ∧
      defaultState.isPreviewEnabled = true := by
  decide

/-- C9: for every prior state, `setPreviewEnabled` only sets the preview
flag to the requested value, leaves `isEnabled` and `isShowing` unchanged,
and issues no compositor effect at all. -/
theorem setPreviewEnabled_state_only (s : GameOverlayState) (b : Bool) :
    (setPreviewEnabled b s).1.isPreviewEnabled = b ∧
      (setPreviewEnabled b s).1.isEnabled = s.isEnabled ∧
      (setPreviewEnabled b s).1.isShowing = s.isShowing ∧
      (setPreviewEnabled b s).2 = ([] : List Effect) := by
  simp [setPreviewEnabled]

/-- C2 counterexample: concrete session in which registration of the second
window (chat, handle 2) returns the sentinel `-1`.  After the completion
callback runs, the first surface is still registered (`liveRegistrations`
is `[1]`, not empty), no window has been destroyed, and the control window
was hidden before the throw — refuting the claimed full rollback
(unregister of already-registered surfaces, destruction of all windows,
state reset) of session creation. -/
theorem registration_failure_rollback_cex :
    liveRegistrations
        (overlayCompleteCallback (fun h => if h = 2 then -1 else Int.ofNat h)
          (roleWindowList
            { recentEvents :=
                { x := 0, y := 0, width := 600, height := 300, handle := 1 },
              chat :=
                { x := 0, y := 0, width := 300, height := 600, handle := 2 },
              overlayControls :=
                { x := 0, y := 0, width := 600, height := 300,
                  handle := 3 } })) = [1] ∧
      windowsDestroyed
          (overlayCompleteCallback
            (fun h => if h = 2 then -1 else Int.ofNat h)
            (roleWindowList
              { recentEvents :=
                  { x := 0, y := 0, width := 600, height := 300, handle := 1 },
                chat :=
                  { x := 0, y := 0, width := 300, height := 600, handle := 2 },
                overlayControls :=
                  { x := 0, y := 0, width := 600, height := 300,
                    handle := 3 } })) = [] ∧
      Effect.hideOverlayWindow ∈
        overlayCompleteCallback (fun h => if h = 2 then -1 else Int.ofNat h)
          (roleWindowList
            { recentEvents :=
                { x := 0, y := 0, width := 600, height := 300, handle := 1 },
              chat :=
                { x := 0, y := 0, width := 300, height := 600, handle := 2 },
              overlayControls :=
                { x := 0, y := 0, width := 600, height := 300,
                  handle := 3 } }) := by
  decide

/-- C2 amended: if registration of the second window returns the invalid
sentinel id, the completion callback hides the container control window and
throws, which aborts the iteration before the third window; the
already-registered first surface stays registered (no unregister call is
issued), no window is destroyed, and the persisted state is untouched —
the error surfaces only as the thrown exception, with no rollback. -/
theorem registration_failure_hides_and_throws (register : Nat → Int)
    (w : OverlayWindows)
    (h1 : register w.recentEvents.handle ≠ -1)
    (h2 : register w.chat.handle = -1) :
    overlayCompleteCallback register (roleWindowList w) =
      [Effect.showInactive WindowRole.recentEvents,
       Effect.addHWND w.recentEvents.handle (register w.recentEvents.handle),
       Effect.setPosition (register w.recentEvents.handle)
         (w.recentEvents.x - OFFSCREEN_OFFSET) w.recentEvents.y
         w.recentEvents.width w.recentEvents.height,
       Effect.setTransparency (register w.recentEvents.handle) 255,
       Effect.showInactive WindowRole.chat,
       Effect.addHWND w.chat.handle (-1),
       Effect.hideOverlayWindow,
       Effect.threw "Error creating overlay"] ∧
      liveRegistrations
          (overlayCompleteCallback register (roleWindowList w)) =
        [register w.recentEvents.handle] ∧
      windowsDestroyed (overlayCompleteCallback register (roleWindowList w)) =
        [] := by
  have htrace : overlayCompleteCallback register (roleWindowList w) =
      [Effect.showInactive WindowRole.recentEvents,
       Effect.addHWND w.recentEvents.handle (register w.recentEvents.handle),
       Effect.setPosition (register w.recentEvents.handle)
         (w.recentEvents.x - OFFSCREEN_OFFSET) w.recentEvents.y
         w.recentEvents.width w.recentEvents.height,
       Effect.setTransparency (register w.recentEvents.handle) 255,
       Effect.showInactive WindowRole.chat,
       Effect.addHWND w.chat.handle (-1),
       Effect.hideOverlayWindow,
       Effect.threw "Error creating overlay"] := by
    simp [roleWindowList, overlayCompleteCallback, h1, h2]
  refine ⟨htrace, ?_, ?_⟩
  · rw [htrace]
    simp [liveRegistrations, liveStep, h1]
  · rw [htrace]
    simp [windowsDestroyed]

/-- C2 amended witness: the failing-second-registration scenario at concrete
windows, where the effect trace ends in hide-and-throw and the first id
stays live. -/
theorem registration_failure_hides_and_throws_witness :
    liveRegistrations
        (overlayCompleteCallback (fun h => if h = 2 then -1 else Int.ofNat h)
          (roleWindowList
            { recentEvents :=
                { x := 100, y := 0, width := 600, height := 300, handle := 1 },
              chat :=
                { x := 700, y := 0, width := 300, height := 600, handle := 2 },
              overlayControls :=
                { x := 100, y := 300, width := 600, height := 300,
                  handle := 3 } })) = [1] :=
  (registration_failure_hides_and_throws
      (fun h => if h = 2 then -1 else Int.ofNat h)
      { recentEvents :=
          { x := 100, y := 0, width := 600, height := 300, handle := 1 },
        chat :=
          { x := 700, y := 0, width := 300, height := 600, handle := 2 },
        overlayControls :=
          { x := 100, y := 300, width := 600, height := 300, handle := 3 } }
      (by decide) (by decide)).2.1

/-- C3 counterexample: after a successful creation that registered all three
surfaces, `destroyOverlay` issues zero per-surface unregister calls (the
claimed best-effort unregister loop does not exist in the code) and leaves
the persisted state untouched — in particular `isEnabled` stays `true`, so
teardown alone does not transition the session to Disabled. -/
theorem teardown_no_unregister_cex :
    (liveRegistrations
        (overlayCompleteCallback (fun h => Int.ofNat h)
          (roleWindowList
            { recentEvents :=
                { x := 0, y := 0, width := 600, height := 300, handle := 1 },
              chat :=
                { x := 0, y := 0, width := 300, height := 600, handle := 2 },
              overlayControls :=
                { x := 0, y := 0, width := 600, height := 300,
                  handle := 3 } }))).length = 3 ∧
      (destroyOverlay
            { isEnabled := true, isShowing := true,
              isPreviewEnabled := true }).2.filter isUnregisterEffect = [] ∧
      (destroyOverlay
          { isEnabled := true, isShowing := true,
            isPreviewEnabled := true }).1.isEnabled = true := by
  decide

/-- C3 amended: teardown stops the compositor thread — which invalidates
all live registrations at once, there being no per-surface unregister
loop — unsubscribes the readiness subscription and destroys every window,
so after any prior effect trace zero live compositor registrations and
zero surface windows remain; it does not itself modify the persisted
session state (the Disabled flag is cleared by `setEnabled(false)`, which
also triggers this teardown). -/
theorem teardown_stops_and_destroys_all (prior : List Effect)
    (s : GameOverlayState) :
    liveRegistrations (prior ++ (destroyOverlay s).2) = [] ∧
      windowsDestroyed (destroyOverlay s).2 =
        [WindowRole.recentEvents, WindowRole.chat,
         WindowRole.overlayControls] ∧
      Effect.stopOverlay ∈ (destroyOverlay s).2 ∧
      (destroyOverlay s).1 = s := by
  refine ⟨?_, by simp [destroyOverlay, windowsDestroyed],
    by simp [destroyOverlay], rfl⟩
  rw [liveRegistrations, List.foldl_append]
  rfl

/-- C7: whenever the completion callback runs (the aggregator completed on
some permutation of the expected readiness signals), the windows built by
`createOverlayWindows` are registered in the fixed role-creation order
RecentEvents, Chat, ControlPanel — the effect trace is the same for every
signal ordering — and each successfully registered surface receives a
`setPosition` call carrying its current on-screen position (its window
coordinate with the `OFFSCREEN_OFFSET` workaround shift removed, hence the
offset-free coordinates below) and size, and a `setTransparency` call with
alpha 255. -/
theorem registration_fixed_role_order (l : List ReadyEvent)
    (register : Nat → Int) (d : DisplayInfo) (handles : WindowRole → Nat)
    (hl : l.Perm fullReadyTrace)
    (h1 : register (handles WindowRole.recentEvents) ≠ -1)
    (h2 : register (handles WindowRole.chat) ≠ -1)
    (h3 : register (handles WindowRole.overlayControls) ≠ -1) :
    overlaySessionEffects l register (createOverlayWindows d handles) =
      [Effect.showInactive WindowRole.recentEvents,
       Effect.addHWND (handles WindowRole.recentEvents)
         (register (handles WindowRole.recentEvents)),
       Effect.setPosition (register (handles WindowRole.recentEvents))
         (d.workAreaWidth / 2 - 400) (d.workAreaHeight / 2 - 300) 600 300,
       Effect.setTransparency (register (handles WindowRole.recentEvents))
         255,
       Effect.showInactive WindowRole.chat,
       Effect.addHWND (handles WindowRole.chat)
         (register (handles WindowRole.chat)),
       Effect.setPosition (register (handles WindowRole.chat))
         (d.workAreaWidth / 2 + 200) (d.workAreaHeight / 2 - 300) 300 600,
       Effect.setTransparency (register (handles WindowRole.chat)) 255,
       Effect.showInactive WindowRole.overlayControls,
       Effect.addHWND (handles WindowRole.overlayControls)
         (register (handles WindowRole.overlayControls)),
       Effect.setPosition (register (handles WindowRole.overlayControls))
         (d.workAreaWidth / 2 - 400) (d.workAreaHeight / 2) 600 300,
       Effect.setTransparency (register (handles WindowRole.overlayControls))
         255] ∧
      handlesRegistered
          (overlaySessionEffects l register (createOverlayWindows d handles)) =
        [handles WindowRole.recentEvents, handles WindowRole.chat,
         handles WindowRole.overlayControls] := by
  have hc : (runAgg l).completedAt = some l.length := (aggPerm_props l hl).1
  have hsome : (runAgg l).completedAt.isSome = true := by rw [hc]; rfl
  have htrace : overlaySessionEffects l register (createOverlayWindows d handles) =
      overlayCompleteCallback register
        (roleWindowList (createOverlayWindows d handles)) := by
    simp [overlaySessionEffects, hsome]
  rw [htrace]
  constructor
  · simp [roleWindowList, overlayCompleteCallback, createOverlayWindows,
      OFFSCREEN_OFFSET, h1, h2, h3]
    omega
  · simp [roleWindowList, overlayCompleteCallback, createOverlayWindows,
      OFFSCREEN_OFFSET, h1, h2, h3, handlesRegistered]

/-- C7 witness: a concrete out-of-order readiness delivery on a 1920x1080
work area still registers the handles in the fixed role order 1, 2, 3. -/
theorem registration_fixed_role_order_witness :
    handlesRegistered
        (overlaySessionEffects
          [ReadyEvent.controlsDomReady, ReadyEvent.chatLoaded,
           ReadyEvent.controlsDomReady, ReadyEvent.recentEventsLoaded]
          (fun h => Int.ofNat h)
          (createOverlayWindows
            { workAreaWidth := 1920, workAreaHeight := 1080 }
            (fun r =>
              match r with
              | WindowRole.recentEvents => 1
              | WindowRole.chat => 2
              | WindowRole.overlayControls => 3))) = [1, 2, 3] :=
  (registration_fixed_role_order
      [ReadyEvent.controlsDomReady, ReadyEvent.chatLoaded,
       ReadyEvent.controlsDomReady, ReadyEvent.recentEventsLoaded]
      (fun h => Int.ofNat h)
      { workAreaWidth := 1920, workAreaHeight := 1080 }
      (fun r =>
        match r with
        | WindowRole.recentEvents => 1
        | WindowRole.chat => 2
        | WindowRole.overlayControls => 3)
      (by decide) (by decide) (by decide) (by decide)).2
